import Mathlib

/-!
# Verification of the Majestic MCP server's tool-to-API mapping layer

A shallow embedding of `src/index.ts` of the `majestic-mcp` repository: the
query-parameter construction performed by each tool handler, the response
envelope check of `majesticRequest`, the response reshaping
(`result.DataTables?.X?.Data || result`), the `get_topics` topical-pair
extraction, and the `JSON.stringify(v, null, 2)` serialization of the tool
result.  JavaScript values that can be `undefined` are modelled with
`Option`; JavaScript truthiness is modelled explicitly.
-/

set_option autoImplicit false

namespace MajesticMCP

/-! ## Decimal rendering of a natural number

Models ECMAScript `ToString` on the nonnegative integers that appear in
template literals such as `` `item${i}` `` in the source.  The digit list is
computed with a structural fuel argument (the number itself bounds the
number of division steps) so that everything reduces by `decide`/`rfl`. -/

/-- Least-significant-first decimal digits of `n`, using `fuel` recursion
steps; correct whenever `n ≤ fuel`. -/
def digitsRevCore : Nat → Nat → List Nat
  | 0, n => [n % 10]
  | fuel + 1, n => if n < 10 then [n] else n % 10 :: digitsRevCore fuel (n / 10)

/-- Value of a least-significant-first digit list. -/
def digitsVal : List Nat → Nat
  | [] => 0
  | d :: ds => d + 10 * digitsVal ds

/-- Decimal string of a natural number, as ECMAScript renders it. -/
def natStr (n : Nat) : String :=
  String.mk (((digitsRevCore n n).reverse).map Nat.digitChar)

theorem digitsVal_digitsRevCore (fuel : Nat) :
    ∀ n : Nat, n ≤ fuel → digitsVal (digitsRevCore fuel n) = n := by
  induction fuel with
  | zero =>
    intro n hn
    have : n = 0 := Nat.le_zero.mp hn
    subst this
    simp [digitsRevCore, digitsVal]
  | succ fuel ih =>
    intro n hn
    by_cases h : n < 10
    · simp [digitsRevCore, h, digitsVal]
    · have hdiv : n / 10 ≤ fuel := by
        have h10 : 10 ≤ n := Nat.not_lt.mp h
        have hpos : 0 < n := Nat.lt_of_lt_of_le (by omega) h10
        have : n / 10 < n := Nat.div_lt_self hpos (by omega)
        omega
      simp only [digitsRevCore, h, if_false, digitsVal, ih (n / 10) hdiv]
      omega

theorem digitsRevCore_lt_ten (fuel : Nat) :
    ∀ n : Nat, ∀ d ∈ digitsRevCore fuel n, d < 10 := by
  induction fuel with
  | zero =>
    intro n d hd
    simp [digitsRevCore] at hd
    subst hd
    exact Nat.mod_lt _ (by omega)
  | succ fuel ih =>
    intro n d hd
    by_cases h : n < 10
    · simp [digitsRevCore, h] at hd
      omega
    · simp only [digitsRevCore, h, if_false, List.mem_cons] at hd
      rcases hd with hd | hd
      · subst hd; exact Nat.mod_lt _ (by omega)
      · exact ih _ _ hd

theorem digitChar_inj_lt : ∀ a b : Fin 10, Nat.digitChar a.val = Nat.digitChar b.val → a = b := by
  decide

theorem map_digitChar_inj {l₁ l₂ : List Nat}
    (h₁ : ∀ d ∈ l₁, d < 10) (h₂ : ∀ d ∈ l₂, d < 10)
    (h : l₁.map Nat.digitChar = l₂.map Nat.digitChar) : l₁ = l₂ := by
  induction l₁ generalizing l₂ with
  | nil => cases l₂ <;> simp_all
  | cons a t ih =>
    cases l₂ with
    | nil => simp_all
    | cons b t₂ =>
      simp only [List.map_cons, List.cons.injEq] at h
      have ha : a < 10 := h₁ a (by simp)
      have hb : b < 10 := h₂ b (by simp)
      have hab : a = b := by
        have := digitChar_inj_lt ⟨a, ha⟩ ⟨b, hb⟩ h.1
        exact congrArg Fin.val this
      have ht : t = t₂ :=
        ih (fun d hd => h₁ d (List.mem_cons_of_mem _ hd))
          (fun d hd => h₂ d (List.mem_cons_of_mem _ hd)) h.2
      rw [hab, ht]

theorem natStr_injective : Function.Injective natStr := by
  intro m n h
  unfold natStr at h
  have hdata : ((digitsRevCore m m).reverse).map Nat.digitChar
      = ((digitsRevCore n n).reverse).map Nat.digitChar := by
    exact congrArg String.data h
  have hrev : (digitsRevCore m m).reverse = (digitsRevCore n n).reverse :=
    map_digitChar_inj
      (fun d hd => digitsRevCore_lt_ten m m d (List.mem_reverse.mp hd))
      (fun d hd => digitsRevCore_lt_ten n n d (List.mem_reverse.mp hd)) hdata
  have hdig : digitsRevCore m m = digitsRevCore n n :=
    List.reverse_injective hrev
  calc m = digitsVal (digitsRevCore m m) := (digitsVal_digitsRevCore m m le_rfl).symm
    _ = digitsVal (digitsRevCore n n) := by rw [hdig]
    _ = n := digitsVal_digitsRevCore n n le_rfl

/-- Every character of `natStr n` is a decimal digit character. -/
theorem natStr_chars (n : Nat) :
    ∀ c ∈ (natStr n).data, ∃ d : Fin 10, c = Nat.digitChar d.val := by
  intro c hc
  unfold natStr at hc
  simp only [List.mem_map, List.mem_reverse] at hc
  obtain ⟨d, hd, rfl⟩ := hc
  exact ⟨⟨d, digitsRevCore_lt_ten n n d hd⟩, rfl⟩

theorem natStr_ne_nil (n : Nat) : (natStr n).data ≠ [] := by
  unfold natStr
  cases hfuel : n with
  | zero => simp [digitsRevCore]
  | succ k =>
    by_cases h : k + 1 < 10 <;>
      simp [digitsRevCore, h]

/-! ## Association-list lookup

JavaScript object literals built in the handlers, and the query string built
by `majesticRequest`, are ordered key/value lists.  All key lists produced by
the source have pairwise-distinct keys (proved below where a claim needs it),
so first-match lookup is the value of a key. -/

/-- First-match lookup in an ordered key/value list. -/
def assocGet {β : Type} : List (String × β) → String → Option β
  | [], _ => none
  | (k', v) :: ps, k => if k' = k then some v else assocGet ps k

theorem assocGet_append_of_forall_ne {β : Type} (l₁ l₂ : List (String × β)) (k : String)
    (h : ∀ p ∈ l₁, p.1 ≠ k) : assocGet (l₁ ++ l₂) k = assocGet l₂ k := by
  induction l₁ with
  | nil => rfl
  | cons p t ih =>
    obtain ⟨k', v⟩ := p
    have hk : k' ≠ k := h (k', v) (by simp)
    simp only [List.cons_append, assocGet, hk, if_false]
    exact ih (fun q hq => h q (List.mem_cons_of_mem _ hq))

theorem assocGet_append_left {β : Type} (l₁ l₂ : List (String × β)) (k : String) (v : β)
    (h : assocGet l₁ k = some v) : assocGet (l₁ ++ l₂) k = some v := by
  induction l₁ with
  | nil => simp [assocGet] at h
  | cons p t ih =>
    obtain ⟨k', w⟩ := p
    by_cases hk : k' = k
    · simp only [assocGet, hk, if_true] at h
      simp [assocGet, hk, h]
    · simp only [assocGet, hk, if_false] at h
      simp only [List.cons_append, assocGet, hk, if_false]
      exact ih h

/-- Lookup of an injectively keyed, mapped list. -/
theorem assocGet_map_key {β : Type} (key : Nat → String) (val : Nat → β)
    (hkey : Function.Injective key) (l : List Nat) (i : Nat) (hi : i ∈ l) :
    assocGet (l.map (fun j => (key j, val j))) (key i) = some (val i) := by
  induction l with
  | nil => simp at hi
  | cons j t ih =>
    by_cases hj : j = i
    · subst hj
      simp [assocGet]
    · have hne : key j ≠ key i := fun h => hj (hkey h)
      have hit : i ∈ t := by
        rcases List.mem_cons.mp hi with h | h
        · exact absurd h.symm hj
        · exact h
      simp only [List.map_cons, assocGet, hne, if_false]
      exact ih hit

/-! ## The `item${i}` parameter keys -/

/-- The key `` `item${i}` `` used by `get_index_item_info` and
`compare_items` for the `i`-th element of the `items` argument. -/
def itemKey (i : Nat) : String := "item" ++ natStr i

theorem string_append_data (s t : String) : (s ++ t).data = s.data ++ t.data := by
  cases s
  cases t
  rfl

theorem itemKey_injective : Function.Injective itemKey := by
  intro i j h
  apply natStr_injective
  unfold itemKey at h
  have := congrArg String.data h
  rw [string_append_data, string_append_data] at this
  have hdata : (natStr i).data = (natStr j).data :=
    List.append_cancel_left this
  cases hi : natStr i
  cases hj : natStr j
  simp_all

theorem itemKey_ne_of_head (i : Nat) (k : String)
    (h : k.data.head? ≠ some 'i') : itemKey i ≠ k := by
  intro heq
  have := congrArg String.data heq
  rw [itemKey, string_append_data] at this
  apply h
  rw [← this]
  rfl

theorem itemKey_ne_items (i : Nat) : itemKey i ≠ "items" := by
  intro heq
  have := congrArg String.data heq
  rw [itemKey, string_append_data] at this
  have hs : (natStr i).data = ['s'] := by
    have : ('i' :: 't' :: 'e' :: 'm' :: (natStr i).data : List Char)
        = 'i' :: 't' :: 'e' :: 'm' :: ['s'] := this
    simpa using this
  have : 's' ∈ (natStr i).data := by rw [hs]; simp
  obtain ⟨d, hd⟩ := natStr_chars i 's' this
  revert hd
  revert d
  decide

/-! ## JSON values

The provider envelope (`await response.json()`).  Numeric values in play are
integers, so numbers are modelled as `Int`. -/

inductive Json where
  | null
  | bool (b : Bool)
  | num (n : Int)
  | str (s : String)
  | arr (elems : List Json)
  | obj (fields : List (String × Json))

/-- JavaScript property access `v[k]`; `none` is `undefined`.  Property
access on a non-object value yields `undefined` for the property names the
source uses (none of them are built-ins of strings or arrays). -/
def jsGet : Json → String → Option Json
  | .obj fs, k => assocGet fs k
  | _, _ => none

/-- JavaScript truthiness of a defined value. -/
def jsTruthy : Json → Bool
  | .null => false
  | .bool b => b
  | .num n => n != 0
  | .str s => s ≠ ""
  | .arr _ => true
  | .obj _ => true

/-- JavaScript truthiness where `none` is `undefined` (falsy). -/
def jsTruthyOpt : Option Json → Bool
  | none => false
  | some v => jsTruthy v

/-- JavaScript `a?.[0]`: array indexing, string indexing, or plain property
access on the key `"0"` for objects; `undefined` otherwise. -/
def jsIdx0 : Json → Option Json
  | .arr es => es.head?
  | .str s =>
    match s.data with
    | [] => none
    | c :: _ => some (.str (String.mk [c]))
  | .obj fs => assocGet fs "0"
  | _ => none

/-- The optional-chained property path `r.k₁?.k₂?. ... ?.kₙ` (`undefined`
short-circuits, and property access on a primitive yields `undefined`). -/
def jsChain : Json → List String → Option Json
  | r, [] => some r
  | r, k :: ks =>
    match jsGet r k with
    | some v => jsChain v ks
    | none => none

/-- The reshaping `<chained table path> || result` appearing in every tool
handler: the extracted value when it is defined and truthy, otherwise the
whole envelope. -/
def tableOr (r : Json) (ks : List String) : Json :=
  match jsChain r ks with
  | some v => if jsTruthy v then v else r
  | none => r

/-! ## ECMAScript string conversions -/

/-- Decimal string of an integer (ECMAScript `ToString` on an integer). -/
def intStr : Int → String
  | .ofNat n => natStr n
  | .negSucc n => "-" ++ natStr (n + 1)

/-- Four lowercase hex digits, for `\u` escapes in JSON serialization. -/
def hex4 (n : Nat) : String :=
  String.mk [Nat.digitChar (n / 4096 % 16), Nat.digitChar (n / 256 % 16),
    Nat.digitChar (n / 16 % 16), Nat.digitChar (n % 16)]

/-- JSON escape of one character, per `QuoteJSONString`. -/
def escChar (c : Char) : String :=
  if c = '"' then "\\\""
  else if c = '\\' then "\\\\"
  else if c = '\n' then "\\n"
  else if c = '\r' then "\\r"
  else if c = '\t' then "\\t"
  else if c.toNat = 8 then "\\b"
  else if c.toNat = 12 then "\\f"
  else if c.toNat < 32 then "\\u" ++ hex4 c.toNat
  else String.mk [c]

/-- JSON quotation of a string. -/
def quoteStr (s : String) : String :=
  "\"" ++ String.join (s.data.map escChar) ++ "\""

/-- Indentation produced by `JSON.stringify(v, null, 2)` at depth `d`. -/
def indentStr (d : Nat) : String :=
  String.mk (List.replicate (2 * d) ' ')

mutual

/-- `JSON.stringify(v, null, 2)` at nesting depth `d`. -/
def serialize : Nat → Json → String
  | _, .null => "null"
  | _, .bool b => if b then "true" else "false"
  | _, .num n => intStr n
  | _, .str s => quoteStr s
  | _, .arr [] => "[]"
  | d, .arr (e :: es) =>
    "[\n" ++ serializeItems (d + 1) e es ++ "\n" ++ indentStr d ++ "]"
  | _, .obj [] => "\x7b\x7d"
  | d, .obj (f :: fs) =>
    "\x7b\n" ++ serializeFields (d + 1) f fs ++ "\n" ++ indentStr d ++ "\x7d"
termination_by d v => sizeOf v

/-- The comma-and-newline separated elements of a serialized array. -/
def serializeItems : Nat → Json → List Json → String
  | d, e, [] => indentStr d ++ serialize d e
  | d, e, e' :: es => indentStr d ++ serialize d e ++ ",\n" ++ serializeItems d e' es
termination_by d e es => sizeOf e + sizeOf es

/-- The comma-and-newline separated members of a serialized object. -/
def serializeFields : Nat → (String × Json) → List (String × Json) → String
  | d, (k, v), [] => indentStr d ++ quoteStr k ++ ": " ++ serialize d v
  | d, (k, v), f' :: fs =>
    indentStr d ++ quoteStr k ++ ": " ++ serialize d v ++ ",\n" ++ serializeFields d f' fs
termination_by d f fs => sizeOf f + sizeOf fs

end

/-- `JSON.stringify(v, null, 2)` as the handlers call it. -/
def stringify (v : Json) : String := serialize 0 v

mutual

/-- ECMAScript `ToString` of a defined value, as used by the template
literal in the `majesticRequest` error message. -/
def jsToStr : Json → String
  | .null => "null"
  | .bool b => if b then "true" else "false"
  | .num n => intStr n
  | .str s => s
  | .arr [] => ""
  | .arr (e :: es) => jsToStrItems e es
  | .obj _ => "[object Object]"
termination_by v => sizeOf v

/-- `Array.prototype.join(",")`: `null` and `undefined` elements render
as the empty string. -/
def jsToStrItems : Json → List Json → String
  | .null, [] => ""
  | e, [] => jsToStr e
  | .null, e' :: es => "," ++ jsToStrItems e' es
  | e, e' :: es => jsToStr e ++ "," ++ jsToStrItems e' es
termination_by e es => sizeOf e + sizeOf es

end

/-- ECMAScript `ToString` where `none` is `undefined`. -/
def jsToStrOpt : Option Json → String
  | none => "undefined"
  | some v => jsToStr v

/-- JavaScript `a || b` over possibly-`undefined` values. -/
def jsOrValue (a b : Option Json) : Option Json :=
  if jsTruthyOpt a then a else b

/-! ## The provider client (`majesticRequest`) -/

/-- A parameter value: `Record<string, string | number | boolean>`. -/
inductive PVal where
  | str (s : String)
  | num (n : Int)
  | bool (b : Bool)

/-- JavaScript `String(value)` on a parameter value. -/
def PVal.toStr : PVal → String
  | .str s => s
  | .num n => intStr n
  | .bool b => if b then "true" else "false"

/-- The query string assembled by `majesticRequest` before the fetch:
`app_api_key`, `cmd`, then every parameter coerced with `String(value)`.
`URLSearchParams.set` overwrites; all key lists built by the handlers have
pairwise-distinct keys, so the ordered list is the query. -/
def buildQuery (apiKey cmd : String) (params : List (String × PVal)) : List (String × String) :=
  ("app_api_key", apiKey) :: ("cmd", cmd) :: params.map (fun p => (p.1, p.2.toStr))

/-- JavaScript `data.Code !== "OK"`, negated: strict equality with the
string literal `"OK"`. -/
def codeIsOK (data : Json) : Bool :=
  match jsGet data "Code" with
  | some (.str s) => s = "OK"
  | _ => false

/-- The envelope check of `majesticRequest` after JSON parsing: throw
`` `Majestic API error: ${data.ErrorMessage || data.Code}` `` unless
`data.Code` is the string `"OK"`; otherwise return the envelope unchanged. -/
def checkEnvelope (data : Json) : Except String Json :=
  if codeIsOK data then .ok data
  else .error ("Majestic API error: "
    ++ jsToStrOpt (jsOrValue (jsGet data "ErrorMessage") (jsGet data "Code")))

/-! ## Tool results -/

/-- One content block of a tool result. -/
structure ContentBlock where
  type : String
  text : String
deriving DecidableEq

/-- The single text block every handler returns. -/
def textBlock (s : String) : ContentBlock :=
  { type := "text", text := s }

/-- A tool result: the `content` list. -/
def ToolResult := List ContentBlock

/-! ## Parameter construction per tool handler -/

/-- JavaScript truthiness of an optional string argument
(`z.string().optional()`): `undefined` and `""` are falsy. -/
def strTruthy : Option String → Bool
  | none => false
  | some s => s ≠ ""

/-- `get_index_item_info`: `{ items: items.length, ...item0..itemN,
datasource, DesiredTopics: 0, GetSubDomainData: includeSubdomains ? 1 : 0 }`. -/
def get_index_item_info_params (items : List String) (datasource : String)
    (includeSubdomains : Bool) : List (String × PVal) :=
  ("items", .num items.length)
    :: ((List.range items.length).map (fun i => (itemKey i, PVal.str (items.getD i ""))))
    ++ [("datasource", .str datasource),
        ("DesiredTopics", .num 0),
        ("GetSubDomainData", .num (if includeSubdomains then 1 else 0))]

/-- `compare_items`: same list expansion, no extra flags. -/
def compare_items_params (items : List String) (datasource : String) :
    List (String × PVal) :=
  ("items", .num items.length)
    :: ((List.range items.length).map (fun i => (itemKey i, PVal.str (items.getD i ""))))
    ++ [("datasource", .str datasource)]

/-- The conditional assignment `if (arg) params.Key = arg;` used for the
optional filter arguments: the entry is added exactly when the argument is
defined and truthy (a non-empty string). -/
def optFilterParam (key : String) (o : Option String) : List (String × PVal) :=
  match o with
  | some t => if t = "" then [] else [(key, PVal.str t)]
  | none => []

/-- `get_backlinks`: base parameters plus the two conditional filters
(`if (filterTopic) params.FilterTopic = filterTopic;` and likewise for
`filterRefDomain`). -/
def get_backlinks_params (item datasource : String) (count : Int) (mode : String)
    (filterTopic filterRefDomain : Option String) : List (String × PVal) :=
  [("item", .str item), ("datasource", .str datasource),
   ("Count", .num count), ("Mode", .str mode)]
  ++ optFilterParam "FilterTopic" filterTopic
  ++ optFilterParam "FilterRefDomain" filterRefDomain

/-- The chained ternary translating `orderBy` in `get_ref_domains`:
`orderBy === "TrustFlow" ? 0 : orderBy === "CitationFlow" ? 1 :
orderBy === "AlexaRank" ? 2 : 3`. -/
def get_ref_domains_orderBy (orderBy : String) : Int :=
  if orderBy = "TrustFlow" then 0
  else if orderBy = "CitationFlow" then 1
  else if orderBy = "AlexaRank" then 2
  else 3

/-- `get_ref_domains`: base parameters plus the conditional `FilterTopic`. -/
def get_ref_domains_params (item datasource : String) (count : Int)
    (orderBy : String) (filterTopic : Option String) : List (String × PVal) :=
  [("item", .str item), ("datasource", .str datasource),
   ("Count", .num count), ("OrderBy", .num (get_ref_domains_orderBy orderBy))]
  ++ optFilterParam "FilterTopic" filterTopic

/-- The chained ternary translating `orderBy` in `get_top_pages`:
`orderBy === "ExtBackLinks" ? 0 : orderBy === "RefDomains" ? 1 :
orderBy === "TrustFlow" ? 2 : 3`. -/
def get_top_pages_orderBy (orderBy : String) : Int :=
  if orderBy = "ExtBackLinks" then 0
  else if orderBy = "RefDomains" then 1
  else if orderBy = "TrustFlow" then 2
  else 3

/-! ## Response shaping per tool handler -/

/-- `get_index_item_info`: `result.DataTables?.Results?.Data || result`,
serialized as the single text block. -/
def get_index_item_info_result (r : Json) : ToolResult :=
  [textBlock (stringify (tableOr r ["DataTables", "Results", "Data"]))]

/-- `get_backlinks`: `result.DataTables?.BackLinks?.Data || result`. -/
def get_backlinks_result (r : Json) : ToolResult :=
  [textBlock (stringify (tableOr r ["DataTables", "BackLinks", "Data"]))]

/-- `get_anchor_text`: `result.DataTables?.AnchorText?.Data || result`. -/
def get_anchor_text_result (r : Json) : ToolResult :=
  [textBlock (stringify (tableOr r ["DataTables", "AnchorText", "Data"]))]

/-- `get_ref_domains`: `result.DataTables?.RefDomains?.Data || result`. -/
def get_ref_domains_result (r : Json) : ToolResult :=
  [textBlock (stringify (tableOr r ["DataTables", "RefDomains", "Data"]))]

/-- `get_top_pages`: `result.DataTables?.TopPages?.Data || result`. -/
def get_top_pages_result (r : Json) : ToolResult :=
  [textBlock (stringify (tableOr r ["DataTables", "TopPages", "Data"]))]

/-- `get_new_lost_backlinks`: `result.DataTables?.Data || result`. -/
def get_new_lost_backlinks_result (r : Json) : ToolResult :=
  [textBlock (stringify (tableOr r ["DataTables", "Data"]))]

/-- `compare_items`: `result.DataTables?.Results?.Data || result`. -/
def compare_items_result (r : Json) : ToolResult :=
  [textBlock (stringify (tableOr r ["DataTables", "Results", "Data"]))]

/-- `get_subscription_info`: the whole envelope, no extraction. -/
def get_subscription_info_result (r : Json) : ToolResult :=
  [textBlock (stringify r)]

/-! ## `get_topics` -/

/-- The key `` `TopicalTrustFlow_Topic_${i}` ``. -/
def topicKey (i : Nat) : String := "TopicalTrustFlow_Topic_" ++ natStr i

/-- The key `` `TopicalTrustFlow_Value_${i}` ``. -/
def valueKey (i : Nat) : String := "TopicalTrustFlow_Value_" ++ natStr i

/-- The loop of the `get_topics` handler: scan `i = 0..9`, pushing
`{ topic, value }` exactly when both fields are truthy. -/
def topicsOf (row : Json) : List (Json × Json) :=
  (List.range 10).filterMap (fun i =>
    match jsGet row (topicKey i), jsGet row (valueKey i) with
    | some t, some v => if jsTruthy t && jsTruthy v then some (t, v) else none
    | _, _ => none)

/-- The first result row: `result.DataTables?.Results?.Data?.[0]`. -/
def topicsFirstRow (r : Json) : Option Json :=
  (jsChain r ["DataTables", "Results", "Data"]).bind jsIdx0

/-- The `{ item, topics }` object the `get_topics` handler serializes. -/
def topicsPayload (item : String) (topics : List (Json × Json)) : Json :=
  .obj [("item", .str item),
        ("topics", .arr (topics.map (fun p => .obj [("topic", p.1), ("value", p.2)])))]

/-- The `get_topics` handler after the provider call: extract the first
result row; if it is truthy, serialize `{ item, topics }`, otherwise fall
back to the whole envelope. -/
def get_topics_result (item : String) (r : Json) : ToolResult :=
  match topicsFirstRow r with
  | some row =>
    if jsTruthy row then [textBlock (stringify (topicsPayload item (topicsOf row)))]
    else [textBlock (stringify r)]
  | none => [textBlock (stringify r)]

/-! ## Input schemas (cardinality constraints on `items`) -/

/-- A `z.array(z.string())` schema with optional `.min` / `.max` length
bounds. -/
structure ItemsSchema where
  minLen : Option Nat
  maxLen : Option Nat

/-- Whether a string array passes the schema's cardinality bounds. -/
def ItemsSchema.accepts (s : ItemsSchema) (items : List String) : Bool :=
  (match s.minLen with
   | some m => decide (m ≤ items.length)
   | none => true)
  && (match s.maxLen with
      | some m => decide (items.length ≤ m)
      | none => true)

/-- `get_index_item_info`'s `items` schema: `z.array(z.string())` —
no size bounds (the `describe` text "(max 100)" is metadata only). -/
def get_index_item_info_itemsSchema : ItemsSchema :=
  { minLen := none, maxLen := none }

/-- `compare_items`'s `items` schema: `z.array(z.string()).min(2).max(5)`. -/
def compare_items_itemsSchema : ItemsSchema :=
  { minLen := some 2, maxLen := some 5 }

/-! ## Helper lemmas -/

theorem assocGet_cons_ne {β : Type} (k' k : String) (v : β) (ps : List (String × β))
    (h : k' ≠ k) : assocGet ((k', v) :: ps) k = assocGet ps k := by
  simp [assocGet, h]

theorem assocGet_map_val {β γ : Type} (g : β → γ) (l : List (String × β)) (k : String) :
    assocGet (l.map (fun p => (p.1, g p.2))) k = (assocGet l k).map g := by
  induction l with
  | nil => rfl
  | cons p t ih =>
    obtain ⟨k', v⟩ := p
    by_cases hk : k' = k <;> simp [assocGet, hk, ih]

theorem itemKey_ne_datasource (i : Nat) : itemKey i ≠ "datasource" :=
  itemKey_ne_of_head i _ (by decide)

theorem itemKey_ne_desiredTopics (i : Nat) : itemKey i ≠ "DesiredTopics" :=
  itemKey_ne_of_head i _ (by decide)

theorem itemKey_ne_getSubDomainData (i : Nat) : itemKey i ≠ "GetSubDomainData" :=
  itemKey_ne_of_head i _ (by decide)

theorem optFilterParam_keys (key : String) (o : Option String) :
    ∀ p ∈ optFilterParam key o, p.1 = key := by
  rcases o with _ | t
  · intro p hp
    simp [optFilterParam] at hp
  · intro p hp
    by_cases ht : t = "" <;> simp [optFilterParam, ht] at hp
    rw [hp]

theorem assocGet_optFilterParam (key : String) (o : Option String) :
    assocGet (optFilterParam key o) key
      = (match o with
         | some t => if t = "" then none else some (PVal.str t)
         | none => none) := by
  rcases o with _ | t
  · rfl
  · by_cases ht : t = "" <;> simp [optFilterParam, assocGet, ht]

theorem assocGet_optFilterParam_ne (key k : String) (o : Option String) (hk : key ≠ k) :
    assocGet (optFilterParam key o) k = none := by
  rcases o with _ | t
  · rfl
  · by_cases ht : t = "" <;> simp [optFilterParam, assocGet, ht, hk]

theorem assocGet_optFilterParam_append (key : String) (o : Option String)
    (l : List (String × PVal)) (h : assocGet l key = none) :
    assocGet (optFilterParam key o ++ l) key
      = (match o with
         | some t => if t = "" then none else some (PVal.str t)
         | none => none) := by
  rcases o with _ | t
  · simpa [optFilterParam] using h
  · by_cases ht : t = "" <;> simp [optFilterParam, assocGet, ht, h]

theorem assocGet_optFilterParam_append_ne (key k : String) (o : Option String)
    (l : List (String × PVal)) (hk : key ≠ k) :
    assocGet (optFilterParam key o ++ l) k = assocGet l k :=
  assocGet_append_of_forall_ne _ _ _
    (fun p hp => by rw [optFilterParam_keys key o p hp]; exact hk)

/-- Lookup of the `items` count parameter. -/
theorem get_index_item_info_params_items (items : List String) (ds : String) (sub : Bool) :
    assocGet (get_index_item_info_params items ds sub) "items" = some (.num items.length) := by
  simp [get_index_item_info_params, assocGet]

/-- Lookup of the `i`-th `item<i>` parameter. -/
theorem get_index_item_info_params_itemKey (items : List String) (ds : String) (sub : Bool)
    (i : Nat) (h : i < items.length) :
    assocGet (get_index_item_info_params items ds sub) (itemKey i)
      = some (.str (items.getD i "")) := by
  have hne : "items" ≠ itemKey i := Ne.symm (itemKey_ne_items i)
  simp only [get_index_item_info_params, assocGet, hne, if_false]
  exact assocGet_append_left _ _ _ _
    (assocGet_map_key itemKey (fun j => PVal.str (items.getD j "")) itemKey_injective
      (List.range items.length) i (List.mem_range.mpr h))

/-- Lookup of the fixed `DesiredTopics` parameter. -/
theorem get_index_item_info_params_desiredTopics (items : List String) (ds : String)
    (sub : Bool) :
    assocGet (get_index_item_info_params items ds sub) "DesiredTopics" = some (.num 0) := by
  simp only [get_index_item_info_params, assocGet, if_neg (by decide : ¬("items" = "DesiredTopics"))]
  rw [List.append_eq, assocGet_append_of_forall_ne]
  · simp [assocGet]
  · intro p hp
    simp only [List.mem_map, List.mem_range] at hp
    obtain ⟨j, _, rfl⟩ := hp
    exact itemKey_ne_desiredTopics j

/-- Lookup of the `GetSubDomainData` parameter. -/
theorem get_index_item_info_params_getSubDomainData (items : List String) (ds : String)
    (sub : Bool) :
    assocGet (get_index_item_info_params items ds sub) "GetSubDomainData"
      = some (.num (if sub then 1 else 0)) := by
  simp only [get_index_item_info_params, assocGet,
    if_neg (by decide : ¬("items" = "GetSubDomainData"))]
  rw [List.append_eq, assocGet_append_of_forall_ne]
  · simp [assocGet]
  · intro p hp
    simp only [List.mem_map, List.mem_range] at hp
    obtain ⟨j, _, rfl⟩ := hp
    exact itemKey_ne_getSubDomainData j

/-- The keys of the constructed `get_index_item_info` parameter object are
pairwise distinct: the object really has one parameter per key. -/
theorem get_index_item_info_params_keys_nodup (items : List String) (ds : String)
    (sub : Bool) :
    ((get_index_item_info_params items ds sub).map Prod.fst).Nodup := by
  simp only [get_index_item_info_params, List.append_eq, List.map_cons, List.map_append,
    List.map_map, List.map_nil]
  have hkeys : (Prod.fst ∘ fun i => (itemKey i, PVal.str (items.getD i "")))
      = fun i => itemKey i := rfl
  rw [hkeys]
  refine List.Nodup.cons ?_ (List.nodup_append.mpr ⟨?_, ?_, ?_⟩)
  · intro hmem
    rcases List.mem_append.mp hmem with h | h
    · obtain ⟨j, _, hj⟩ := List.mem_map.mp h
      exact itemKey_ne_items j hj
    · exact absurd h (by decide)
  · exact (List.nodup_range _).map itemKey_injective
  · decide
  · intro k hk hk'
    obtain ⟨j, _, rfl⟩ := List.mem_map.mp hk
    rcases List.mem_cons.mp hk' with h | hk'
    · exact itemKey_ne_datasource j h
    rcases List.mem_cons.mp hk' with h | hk'
    · exact itemKey_ne_desiredTopics j h
    rcases List.mem_cons.mp hk' with h | hk'
    · exact itemKey_ne_getSubDomainData j h
    · exact absurd hk' (List.not_mem_nil _)

/-! ## Claims -/

/-- C1: for every non-empty `items` list, the `get_index_item_info`
provider parameters contain `items` set to the list's length, one parameter
`item<i>` for each index `i < length` holding the `i`-th element (the keys
being pairwise distinct), and the fixed `DesiredTopics=0`. -/
theorem C1_get_index_item_info_param_enumeration (items : List String) (datasource : String)
    (includeSubdomains : Bool) (hne : items ≠ []) :
    assocGet (get_index_item_info_params items datasource includeSubdomains) "items"
      = some (.num items.length)
    ∧ (∀ i : Nat, (h : i < items.length) →
        assocGet (get_index_item_info_params items datasource includeSubdomains) (itemKey i)
          = some (.str (items.get ⟨i, h⟩)))
    ∧ assocGet (get_index_item_info_params items datasource includeSubdomains) "DesiredTopics"
      = some (.num 0)
    ∧ ((get_index_item_info_params items datasource includeSubdomains).map Prod.fst).Nodup := by
  refine ⟨get_index_item_info_params_items items datasource includeSubdomains, ?_,
    get_index_item_info_params_desiredTopics items datasource includeSubdomains,
    get_index_item_info_params_keys_nodup items datasource includeSubdomains⟩
  intro i h
  rw [get_index_item_info_params_itemKey items datasource includeSubdomains i h]
  congr 2
  rw [List.getD_eq_getElem items "" h]
  simp

/-- Witness for C1: a 100-element list yields `item0 .. item99`. -/
theorem C1_witness :
    (List.replicate 100 "example.com" : List String) ≠ []
    ∧ assocGet (get_index_item_info_params (List.replicate 100 "example.com") "fresh" true)
        "items" = some (.num 100)
    ∧ assocGet (get_index_item_info_params (List.replicate 100 "example.com") "fresh" true)
        (itemKey 0) = some (.str "example.com")
    ∧ assocGet (get_index_item_info_params (List.replicate 100 "example.com") "fresh" true)
        (itemKey 99) = some (.str "example.com") := by
  have h := C1_get_index_item_info_param_enumeration
    (List.replicate 100 "example.com") "fresh" true (by decide)
  refine ⟨by decide, h.1, ?_, ?_⟩
  · have h0 := h.2.1 0 (by decide)
    simpa using h0
  · have h99 := h.2.1 99 (by decide)
    simpa using h99

/-- C2 (code bug): `get_index_item_info`'s `items` schema is
`z.array(z.string())` with no cardinality bounds, so a 101-element array is
accepted, contradicting the documented "(max 100)"; `compare_items` does
reject sizes 1 and 6 and accepts 2..5. -/
theorem C2_items_schema_cardinality :
    get_index_item_info_itemsSchema.accepts (List.replicate 101 "example.com") = true
    ∧ get_index_item_info_itemsSchema.accepts [] = true
    ∧ compare_items_itemsSchema.accepts (List.replicate 1 "example.com") = false
    ∧ compare_items_itemsSchema.accepts (List.replicate 6 "example.com") = false
    ∧ compare_items_itemsSchema.accepts (List.replicate 2 "example.com") = true
    ∧ compare_items_itemsSchema.accepts (List.replicate 5 "example.com") = true := by
  decide

/-- C6: the `orderBy` translations of `get_ref_domains`
(`TrustFlow↦0, CitationFlow↦1, AlexaRank↦2, RefDomains↦3`) and
`get_top_pages` (`ExtBackLinks↦0, RefDomains↦1, TrustFlow↦2,
CitationFlow↦3`) are total deterministic functions on the four listed
literals, mapping them bijectively onto `0, 1, 2, 3`. -/
theorem C6_orderBy_translation :
    get_ref_domains_orderBy "TrustFlow" = 0
    ∧ get_ref_domains_orderBy "CitationFlow" = 1
    ∧ get_ref_domains_orderBy "AlexaRank" = 2
    ∧ get_ref_domains_orderBy "RefDomains" = 3
    ∧ ["TrustFlow", "CitationFlow", "AlexaRank", "RefDomains"].map get_ref_domains_orderBy
      = [0, 1, 2, 3]
    ∧ get_top_pages_orderBy "ExtBackLinks" = 0
    ∧ get_top_pages_orderBy "RefDomains" = 1
    ∧ get_top_pages_orderBy "TrustFlow" = 2
    ∧ get_top_pages_orderBy "CitationFlow" = 3
    ∧ ["ExtBackLinks", "RefDomains", "TrustFlow", "CitationFlow"].map get_top_pages_orderBy
      = [0, 1, 2, 3] := by
  decide

/-- C8: the `includeSubdomains` boolean reaches the query string as
`GetSubDomainData=1` / `GetSubDomainData=0`, never as the literal strings
`"true"` or `"false"`. -/
theorem C8_getSubDomainData_encoding (apiKey : String) (items : List String)
    (datasource : String) (includeSubdomains : Bool) :
    assocGet (buildQuery apiKey "GetIndexItemInfo"
        (get_index_item_info_params items datasource includeSubdomains)) "GetSubDomainData"
      = some (if includeSubdomains then "1" else "0")
    ∧ assocGet (buildQuery apiKey "GetIndexItemInfo"
        (get_index_item_info_params items datasource includeSubdomains)) "GetSubDomainData"
      ≠ some "true"
    ∧ assocGet (buildQuery apiKey "GetIndexItemInfo"
        (get_index_item_info_params items datasource includeSubdomains)) "GetSubDomainData"
      ≠ some "false" := by
  have h : assocGet (buildQuery apiKey "GetIndexItemInfo"
      (get_index_item_info_params items datasource includeSubdomains)) "GetSubDomainData"
      = some (if includeSubdomains then "1" else "0") := by
    unfold buildQuery
    rw [assocGet_cons_ne _ _ _ _ (by decide), assocGet_cons_ne _ _ _ _ (by decide),
      assocGet_map_val PVal.toStr, get_index_item_info_params_getSubDomainData]
    cases includeSubdomains <;> rfl
  refine ⟨h, ?_, ?_⟩ <;> rw [h] <;> cases includeSubdomains <;> decide

/-- Witness for C8: concrete calls with `includeSubdomains` true and false
place `1` and `0` in the query. -/
theorem C8_witness :
    assocGet (buildQuery "key" "GetIndexItemInfo"
        (get_index_item_info_params ["example.com"] "fresh" true)) "GetSubDomainData"
      = some "1"
    ∧ assocGet (buildQuery "key" "GetIndexItemInfo"
        (get_index_item_info_params ["example.com"] "fresh" false)) "GetSubDomainData"
      = some "0" :=
  ⟨(C8_getSubDomainData_encoding "key" ["example.com"] "fresh" true).1,
   (C8_getSubDomainData_encoding "key" ["example.com"] "fresh" false).1⟩

/-- C9: an optional filter argument that is the empty string produces the
same provider parameters as an absent one, and the filter key is sent
exactly when the argument is a non-empty string (with that value). -/
theorem C9_empty_filter_omitted (item datasource : String) (count : Int) (mode : String)
    (orderBy : String) (filterTopic filterRefDomain : Option String) :
    get_backlinks_params item datasource count mode (some "") filterRefDomain
      = get_backlinks_params item datasource count mode none filterRefDomain
    ∧ get_backlinks_params item datasource count mode filterTopic (some "")
      = get_backlinks_params item datasource count mode filterTopic none
    ∧ get_ref_domains_params item datasource count orderBy (some "")
      = get_ref_domains_params item datasource count orderBy none
    ∧ assocGet (get_backlinks_params item datasource count mode filterTopic filterRefDomain)
        "FilterTopic"
      = (match filterTopic with
         | some t => if t = "" then none else some (PVal.str t)
         | none => none)
    ∧ assocGet (get_backlinks_params item datasource count mode filterTopic filterRefDomain)
        "FilterRefDomain"
      = (match filterRefDomain with
         | some t => if t = "" then none else some (PVal.str t)
         | none => none)
    ∧ assocGet (get_ref_domains_params item datasource count orderBy filterTopic)
        "FilterTopic"
      = (match filterTopic with
         | some t => if t = "" then none else some (PVal.str t)
         | none => none) := by
  refine ⟨rfl, rfl, rfl, ?_, ?_, ?_⟩
  · unfold get_backlinks_params
    rw [List.append_assoc,
      assocGet_append_of_forall_ne _ _ _ (by intro p hp; fin_cases hp <;> simp)]
    exact assocGet_optFilterParam_append _ _ _
      (assocGet_optFilterParam_ne _ _ _ (by decide))
  · unfold get_backlinks_params
    rw [List.append_assoc,
      assocGet_append_of_forall_ne _ _ _ (by intro p hp; fin_cases hp <;> simp),
      assocGet_optFilterParam_append_ne _ _ _ _ (by decide)]
    exact assocGet_optFilterParam _ _
  · unfold get_ref_domains_params
    rw [assocGet_append_of_forall_ne _ _ _ (by intro p hp; fin_cases hp <;> simp)]
    exact assocGet_optFilterParam _ _

/-- C3: when the envelope's `Code` is a string other than `"OK"`,
`majesticRequest` throws an error carrying the non-empty `ErrorMessage`
when one is present (exactly that message), and the raw `Code` when
`ErrorMessage` is absent.  "Present" is JavaScript truthiness of
`data.ErrorMessage || data.Code`: an empty-string message counts as
absent. -/
theorem C3_envelope_error_message (data : Json) (c : String)
    (hc : jsGet data "Code" = some (.str c)) (hne : c ≠ "OK") :
    (∀ m : String, jsGet data "ErrorMessage" = some (.str m) → m ≠ "" →
      checkEnvelope data = .error ("Majestic API error: " ++ m))
    ∧ (jsGet data "ErrorMessage" = none →
      checkEnvelope data = .error ("Majestic API error: " ++ c)) := by
  have hcode : codeIsOK data = false := by
    unfold codeIsOK
    rw [hc]
    simp [hne]
  constructor
  · intro m hm hm'
    unfold checkEnvelope
    rw [hcode, hm, hc]
    simp only [Bool.false_eq_true, if_false]
    have : jsTruthyOpt (some (Json.str m)) = true := by
      simp [jsTruthyOpt, jsTruthy, hm']
    rw [jsOrValue, this]
    simp [jsToStrOpt, jsToStr]
  · intro hm
    unfold checkEnvelope
    rw [hcode, hm, hc]
    simp only [Bool.false_eq_true, if_false]
    rw [jsOrValue]
    simp [jsToStrOpt, jsTruthyOpt, jsToStr]

/-- Witness for C3: a failing envelope with a message uses the message; one
without a message falls back to the code. -/
theorem C3_witness :
    checkEnvelope (.obj [("Code", .str "QueryFailed"), ("ErrorMessage", .str "quota exceeded")])
      = .error ("Majestic API error: " ++ "quota exceeded")
    ∧ checkEnvelope (.obj [("Code", .str "QueryFailed")])
      = .error ("Majestic API error: " ++ "QueryFailed") := by
  constructor
  · exact (C3_envelope_error_message
      (.obj [("Code", .str "QueryFailed"), ("ErrorMessage", .str "quota exceeded")])
      "QueryFailed" rfl (by decide)).1 "quota exceeded" rfl (by decide)
  · exact (C3_envelope_error_message
      (.obj [("Code", .str "QueryFailed")]) "QueryFailed" rfl (by decide)).2 rfl

/-- C4: whenever the expected data-table path is absent from the provider
response (and, for `get_topics`, whenever the first result row is absent,
e.g. an empty row sequence), the tool result is the entire envelope,
serialized verbatim — not an error. -/
theorem C4_missing_table_returns_envelope (r : Json) :
    (jsChain r ["DataTables", "Results", "Data"] = none →
      get_index_item_info_result r = [textBlock (stringify r)]
      ∧ compare_items_result r = [textBlock (stringify r)])
    ∧ (jsChain r ["DataTables", "BackLinks", "Data"] = none →
      get_backlinks_result r = [textBlock (stringify r)])
    ∧ (jsChain r ["DataTables", "AnchorText", "Data"] = none →
      get_anchor_text_result r = [textBlock (stringify r)])
    ∧ (jsChain r ["DataTables", "RefDomains", "Data"] = none →
      get_ref_domains_result r = [textBlock (stringify r)])
    ∧ (jsChain r ["DataTables", "TopPages", "Data"] = none →
      get_top_pages_result r = [textBlock (stringify r)])
    ∧ (jsChain r ["DataTables", "Data"] = none →
      get_new_lost_backlinks_result r = [textBlock (stringify r)])
    ∧ get_subscription_info_result r = [textBlock (stringify r)]
    ∧ (∀ item : String, topicsFirstRow r = none →
      get_topics_result item r = [textBlock (stringify r)])
    ∧ (∀ item : String, jsChain r ["DataTables", "Results", "Data"] = some (.arr []) →
      get_topics_result item r = [textBlock (stringify r)]) := by
  refine ⟨fun h => ⟨?_, ?_⟩, fun h => ?_, fun h => ?_, fun h => ?_, fun h => ?_,
    fun h => ?_, rfl, fun item h => ?_, fun item h => ?_⟩
  · simp [get_index_item_info_result, tableOr, h]
  · simp [compare_items_result, tableOr, h]
  · simp [get_backlinks_result, tableOr, h]
  · simp [get_anchor_text_result, tableOr, h]
  · simp [get_ref_domains_result, tableOr, h]
  · simp [get_top_pages_result, tableOr, h]
  · simp [get_new_lost_backlinks_result, tableOr, h]
  · simp [get_topics_result, h]
  · simp [get_topics_result, topicsFirstRow, h, jsIdx0]

/-- Witness for C4: an envelope with no `DataTables` takes the verbatim
fallback in every handler, and so does `get_topics` on an empty row
sequence. -/
theorem C4_witness :
    jsChain (.obj [("Code", .str "OK")]) ["DataTables", "BackLinks", "Data"] = none
    ∧ get_backlinks_result (.obj [("Code", .str "OK")])
      = [textBlock (stringify (.obj [("Code", .str "OK")]))]
    ∧ get_index_item_info_result (.obj [("Code", .str "OK")])
      = [textBlock (stringify (.obj [("Code", .str "OK")]))]
    ∧ get_topics_result "example.com"
        (.obj [("DataTables", .obj [("Results", .obj [("Data", .arr [])])])])
      = [textBlock (stringify (.obj [("DataTables",
          .obj [("Results", .obj [("Data", .arr [])])])]))] := by
  refine ⟨rfl, ?_, ?_, ?_⟩
  · exact (C4_missing_table_returns_envelope (.obj [("Code", .str "OK")])).2.1 rfl
  · exact ((C4_missing_table_returns_envelope (.obj [("Code", .str "OK")])).1 rfl).1
  · exact (C4_missing_table_returns_envelope
      (.obj [("DataTables", .obj [("Results", .obj [("Data", .arr [])])])])).2.2.2.2.2.2.2.2
      "example.com" rfl

theorem filterMap_eq_filter_map {α β : Type} (f : α → Option β) (p : α → Bool) (g : α → β)
    (l : List α) (h : ∀ a ∈ l, f a = if p a then some (g a) else none) :
    l.filterMap f = (l.filter p).map g := by
  induction l with
  | nil => rfl
  | cons a t ih =>
    have ha := h a (by simp)
    have ht := ih (fun b hb => h b (List.mem_cons_of_mem _ hb))
    by_cases hp : p a <;>
      simp [List.filterMap_cons, List.filter_cons, ha, hp, ht]

/-- C5: `get_topics` scans indices `0..9`, collecting in index order
exactly the pairs `TopicalTrustFlow_Topic_i` / `TopicalTrustFlow_Value_i`
whose fields are both truthy; a first row with exactly the pair
`("Shopping", "40")` at index 0 yields exactly one topic entry. -/
theorem C5_topics_extraction :
    (∀ row : Json, topicsOf row =
      ((List.range 10).filter (fun i =>
          jsTruthyOpt (jsGet row (topicKey i)) && jsTruthyOpt (jsGet row (valueKey i)))).map
        (fun i => ((jsGet row (topicKey i)).getD .null, (jsGet row (valueKey i)).getD .null)))
    ∧ topicsOf (.obj [("TopicalTrustFlow_Topic_0", .str "Shopping"),
          ("TopicalTrustFlow_Value_0", .str "40")])
      = [(.str "Shopping", .str "40")]
    ∧ get_topics_result "example.com"
        (.obj [("Code", .str "OK"),
          ("DataTables", .obj [("Results", .obj [("Data",
            .arr [.obj [("TopicalTrustFlow_Topic_0", .str "Shopping"),
                        ("TopicalTrustFlow_Value_0", .str "40")]])])])])
      = [textBlock (stringify
          (topicsPayload "example.com" [(.str "Shopping", .str "40")]))] := by
  refine ⟨?_, rfl, rfl⟩
  intro row
  apply filterMap_eq_filter_map
  intro i _
  rcases htk : jsGet row (topicKey i) with _ | t <;>
    rcases hvk : jsGet row (valueKey i) with _ | v <;>
      simp [jsTruthyOpt, htk, hvk]

/-- C7: when the provider response contains a `DataTables.BackLinks.Data`
row set, the `get_backlinks` tool result is exactly one `text` content
block whose payload is that row set serialized by
`JSON.stringify(·, null, 2)`. -/
theorem C7_backlinks_roundtrip (r : Json) (rows : List Json)
    (h : jsChain r ["DataTables", "BackLinks", "Data"] = some (.arr rows)) :
    get_backlinks_result r = [{ type := "text", text := stringify (.arr rows) }]
    ∧ (get_backlinks_result r).length = 1 := by
  have htab : tableOr r ["DataTables", "BackLinks", "Data"] = .arr rows := by
    simp [tableOr, h, jsTruthy]
  exact ⟨by simp [get_backlinks_result, htab, textBlock], by simp [get_backlinks_result]⟩

/-- Witness for C7: a stub response with one backlink row round-trips. -/
theorem C7_witness :
    jsChain (.obj [("Code", .str "OK"), ("DataTables", .obj [("BackLinks", .obj [("Data",
        .arr [.obj [("SourceURL", .str "https://a.example"), ("TrustFlow", .num 17)]])])])])
      ["DataTables", "BackLinks", "Data"]
      = some (.arr [.obj [("SourceURL", .str "https://a.example"), ("TrustFlow", .num 17)]])
    ∧ get_backlinks_result
        (.obj [("Code", .str "OK"), ("DataTables", .obj [("BackLinks", .obj [("Data",
          .arr [.obj [("SourceURL", .str "https://a.example"), ("TrustFlow", .num 17)]])])])])
      = [{ type := "text", text := (stringify
          (.arr [.obj [("SourceURL", .str "https://a.example"), ("TrustFlow", .num 17)]])) }] :=
  ⟨rfl, (C7_backlinks_roundtrip
    (.obj [("Code", .str "OK"), ("DataTables", .obj [("BackLinks", .obj [("Data",
      .arr [.obj [("SourceURL", .str "https://a.example"), ("TrustFlow", .num 17)]])])])])
    [.obj [("SourceURL", .str "https://a.example"), ("TrustFlow", .num 17)]] rfl).1⟩

/-- C10: when the first result row is present (a row is a JSON object, and
every object is truthy), `get_topics` returns the `{ item, topics }`
payload — with `topics = []` when no index `0..9` has both paired fields
truthy — and the envelope fallback is taken exactly when the first row is
absent. -/
theorem C10_topics_empty_row (r : Json) (item : String) :
    (∀ fs : List (String × Json), topicsFirstRow r = some (.obj fs) →
      get_topics_result item r
        = [textBlock (stringify (topicsPayload item (topicsOf (.obj fs))))])
    ∧ (∀ fs : List (String × Json), topicsFirstRow r = some (.obj fs) →
      (∀ i : Nat, i < 10 →
        ¬(jsTruthyOpt (jsGet (.obj fs) (topicKey i)) = true
          ∧ jsTruthyOpt (jsGet (.obj fs) (valueKey i)) = true)) →
      get_topics_result item r = [textBlock (stringify (topicsPayload item []))])
    ∧ (topicsFirstRow r = none → get_topics_result item r = [textBlock (stringify r)]) := by
  have hbranch : ∀ fs : List (String × Json), topicsFirstRow r = some (.obj fs) →
      get_topics_result item r
        = [textBlock (stringify (topicsPayload item (topicsOf (.obj fs))))] := by
    intro fs h
    simp [get_topics_result, h, jsTruthy]
  refine ⟨hbranch, ?_, ?_⟩
  · intro fs h hnone
    rw [hbranch fs h]
    have htop : topicsOf (.obj fs) = [] := by
      rw [topicsOf, List.filterMap_eq_nil_iff]
      intro i hi
      have hni := hnone i (List.mem_range.mp hi)
      rcases htk : jsGet (.obj fs) (topicKey i) with _ | t
      · rfl
      rcases hvk : jsGet (.obj fs) (valueKey i) with _ | v
      · rfl
      simp only [htk, hvk, jsTruthyOpt] at hni ⊢
      by_cases h1 : jsTruthy t <;> by_cases h2 : jsTruthy v <;> simp_all
    rw [htop]
  · intro h
    simp [get_topics_result, h]

/-- Witness for C10: a first row with metrics but no topical pairs yields
`{ item, topics: [] }`. -/
theorem C10_witness :
    topicsFirstRow (.obj [("DataTables", .obj [("Results", .obj [("Data",
        .arr [.obj [("ItemNum", .num 0), ("TrustFlow", .num 44)]])])])])
      = some (.obj [("ItemNum", .num 0), ("TrustFlow", .num 44)])
    ∧ get_topics_result "example.com"
        (.obj [("DataTables", .obj [("Results", .obj [("Data",
          .arr [.obj [("ItemNum", .num 0), ("TrustFlow", .num 44)]])])])])
      = [textBlock (stringify (topicsPayload "example.com" []))] := by
  refine ⟨rfl, ?_⟩
  exact (C10_topics_empty_row
    (.obj [("DataTables", .obj [("Results", .obj [("Data",
      .arr [.obj [("ItemNum", .num 0), ("TrustFlow", .num 44)]])])])]) "example.com").2.1
    [("ItemNum", .num 0), ("TrustFlow", .num 44)] rfl (by decide)

end MajesticMCP
